import Mathlib

/-!
Shallow embedding of `pyfda/input_widgets/freq_units.py` (class `FreqUnits`),
the frequency-unit subwidget of pyFDA.

Modelling conventions:

* The shared filter-configuration dictionary `fb.fil[0]` is modelled by the
  structure `Cfg`, restricted to the keys this widget reads or writes.
  Python floats are modelled as rationals `ℚ` (the values involved are exact:
  1, 2, 1/f_S, N_FFT, ...).
* The widget's own mutable state (`fs_old`, `spec_edited`, and the current
  states of its combo boxes / toggle buttons) is the structure `Widget`.
  Calls such as `setText`, `setVisible` and `setIcon` only change the rendered
  UI, not the shared dictionary, and are not modelled.
* Each Qt slot becomes a function from `(Widget, Cfg)` to new states plus the
  list of signals emitted via `self.sig_tx.emit(...)` during the call
  (the constant `'sender'` entry of the emitted dict is dropped).
* In `update_UI`, the local variable `idx` is assigned only in the
  absolute-unit branch (line 258) but read unconditionally at line 280
  (`self.t_units[idx]`).  For a normalized unit the call therefore raises
  `UnboundLocalError` at line 280, after the dictionary writes of lines
  220–279 have already happened and before the label writes, the range update
  and the signal emission.  This is modelled by the `raised` flag of
  `UpdateResult`: the partially mutated state is kept (the dictionary is
  mutated in place) and no signal is emitted on that path.
* `safe_eval` and `qget_cmb_box` live in `pyfda.libs` (outside the analyzed
  file); they are modelled from their documented contracts, see below.
-/

/-- The seven entries of the unit combo box:
`f_units = ['k','f_S', 'f_Ny', 'Hz', 'kHz', 'MHz', 'GHz']` (line 64). -/
inductive FUnit
  | k
  | f_S
  | f_Ny
  | Hz
  | kHz
  | MHz
  | GHz
deriving DecidableEq, Repr

/-- The text of a unit combo-box entry (`self.cmbUnits.currentText()`). -/
def FUnit.str : FUnit → String
  | .k => "k"
  | .f_S => "f_S"
  | .f_Ny => "f_Ny"
  | .Hz => "Hz"
  | .kHz => "kHz"
  | .MHz => "MHz"
  | .GHz => "GHz"

/-- The index of a unit in the combo box (`self.cmbUnits.currentIndex()`). -/
def FUnit.idx : FUnit → Nat
  | .k => 0
  | .f_S => 1
  | .f_Ny => 2
  | .Hz => 3
  | .kHz => 4
  | .MHz => 5
  | .GHz => 6

/-- `f_unit in {"f_S", "f_Ny", "k"}` (lines 212 and 241). -/
def FUnit.isNormalized (u : FUnit) : Bool :=
  ["f_S", "f_Ny", "k"].contains u.str

/-- `self.t_units = ['', '', '', 's', 'ms', r'$\mu$s', 'ns']` (line 65). -/
def t_units : List String :=
  ["", "", "", "s", "ms", "$\\mu$s", "ns"]

/-- The three entries of the range combo box, by their item data:
`fRanges = [("0...½", "half"), ("0...1","whole"), ("-½...½", "sym")]` (line 108). -/
inductive RangeType
  | half
  | whole
  | sym
deriving DecidableEq, Repr

/-- The item-data string of a range combo-box entry, as returned by
`qget_cmb_box(self.cmbFRange)` (modelled from its use: the helper returns the
data string of the current entry of the combo box). -/
def RangeType.str : RangeType → String
  | .half => "half"
  | .whole => "whole"
  | .sym => "sym"

/-- A signal emitted through `self.sig_tx.emit({'sender': __name__, tag_kind: tag})`;
the constant `'sender'` entry is dropped. -/
inductive Sig
  | view_changed (tag : String)
  | specs_changed (tag : String)
deriving DecidableEq, Repr

/-- The subset of the shared dictionary `fb.fil[0]` read or written by
`FreqUnits` (see the class docstring, lines 33–44, plus `f_S_locked`, `T_S`,
`f_S_scale`, `freq_specs_unit`, `freqSpecsRangeType` and `freq_specs_sort`). -/
structure Cfg where
  f_S : ℚ
  f_S_locked : Option ℚ
  f_max : ℚ
  T_S : ℚ
  f_S_scale : ℚ
  freq_specs_unit : FUnit
  freqSpecsRangeType : RangeType
  freqSpecsRange : ℚ × ℚ
  freq_specs_sort : Bool
  plt_fUnit : String
  plt_tUnit : String
  plt_fLabel : String
  plt_tLabel : String
deriving DecidableEq, Repr

/-- The widget's own mutable state: the instance attributes `fs_old` (line 74)
and `spec_edited` (line 54), and the current logical states of its input
controls (unit combo box, range combo box, lock button, sort button). -/
structure Widget where
  fs_old : ℚ
  spec_edited : Bool
  cmbUnits : FUnit
  cmbFRange : RangeType
  butLock : Bool
  butSort : Bool
deriving DecidableEq, Repr

/-- External configuration consumed by the widget: `params['N_FFT']`
(line 234; the format string `params['FMT']` only affects displayed text). -/
structure Params where
  N_FFT : ℚ
deriving DecidableEq, Repr

/-- `FreqUnits._freq_range(emit)` (lines 340–365): store the current range-type
selection, compute the plotting range from it and `f_max`, and emit
`'view_changed':'f_range'` iff `emit` is true.  (The coercion
`if type(emit) == int: emit = True` for combo-box invocations is applied by
the caller model, `step`.) -/
def _freq_range (emit : Bool) (w : Widget) (c : Cfg) : Cfg × List Sig :=
  let rangeType := w.cmbFRange
  let c := { c with freqSpecsRangeType := rangeType }
  let f_max := c.f_max
  let f_lim : ℚ × ℚ :=
    if rangeType.str = "whole" then (0, f_max)
    else if rangeType.str = "sym" then (-(f_max / 2), f_max / 2)
    else (0, f_max / 2)
  let c := { c with freqSpecsRange := f_lim }
  (c, if emit then [Sig.view_changed "f_range"] else [])

/-- How `UpdateResult.raised` arose: `FreqUnits.update_UI` (lines 196–287).
See the module docstring for the `UnboundLocalError` on the normalized path. -/
structure UpdateResult where
  widget : Widget
  cfg : Cfg
  sigs : List Sig
  raised : Bool
deriving DecidableEq, Repr

/-- `FreqUnits.update_UI` (lines 196–287).  Reads the selected unit from the
unit combo box; for normalized units stores `fs_old` and writes the fixed
`f_S`/`f_max`/`T_S` values; for absolute units restores from `fs_old` when the
previously stored unit was normalized, and selects the scale factor; then
updates the derived dictionary entries, recomputes the range without emitting,
and emits `'view_changed':'f_unit'`.  On the normalized path the call raises
`UnboundLocalError` at line 280 (`self.t_units[idx]` with `idx` unassigned),
so the writes after line 279 do not happen and no signal is emitted;
`raised := true` records this. -/
def update_UI (p : Params) (w : Widget) (c : Cfg) : UpdateResult :=
  let f_unit := w.cmbUnits
  let is_normalized_freq := f_unit.isNormalized
  let f_S_scale : ℚ := 1      -- default setting for f_S scale (line 217)
  if is_normalized_freq then
    let w := { w with fs_old := c.f_S }   -- store current sampling frequency
    let _t_label := "$n \\; \\rightarrow$"
    let c :=
      if f_unit.str = "f_S" then          -- normalized to f_S
        { c with f_S := 1, f_max := 1, T_S := 1 }
      else if f_unit.str = "f_Ny" then    -- normalized to f_nyq = f_S / 2
        { c with f_S := 2, f_max := 2, T_S := 1 }
      else                                -- frequency index k
        { c with f_S := 1, T_S := 1, f_max := p.N_FFT }
    -- line 237 `self.ledF_S.setText(...)`: display only
    let plt_f_unit := if f_unit.str = "k" then "f_S" else f_unit.str
    let c := { c with f_S_scale := f_S_scale }
    let c := { c with freq_specs_unit := f_unit }
    let c := { c with plt_fUnit := plt_f_unit }
    -- line 280 `self.t_units[idx]`: `idx` unassigned on this path, raises
    { widget := w, cfg := c, sigs := [], raised := true }
  else
    -- Restore sampling frequency when returning from f_S / f_Ny / k
    let c :=
      if c.freq_specs_unit.isNormalized then
        { c with f_S := w.fs_old, f_max := w.fs_old, T_S := 1 / w.fs_old }
      else c
    let f_S_scale : ℚ :=
      if f_unit.str = "Hz" then 1
      else if f_unit.str = "kHz" then 1000
      else if f_unit.str = "MHz" then 1000000
      else if f_unit.str = "GHz" then 1000000000
      else f_S_scale   -- unknown unit: warning logged, scale keeps default
    let f_label := "$f$ in " ++ f_unit.str ++ "$\\; \\rightarrow$"
    let idx := f_unit.idx
    let t_label := "$t$ in " ++ t_units.getD idx "" ++ "$\\; \\rightarrow$"
    let plt_f_unit := if f_unit.str = "k" then "f_S" else f_unit.str
    let c := { c with f_S_scale := f_S_scale }
    let c := { c with freq_specs_unit := f_unit }
    let c := { c with plt_fUnit := plt_f_unit }
    let c := { c with plt_tUnit := t_units.getD idx "" }
    let c := { c with plt_fLabel := f_label }
    let c := { c with plt_tLabel := t_label }
    let rs := _freq_range false w c       -- update f_lim without emitting
    { widget := w, cfg := rs.1,
      sigs := rs.2 ++ [Sig.view_changed "f_unit"], raised := false }

/-- Selecting a unit in the combo box: `currentIndexChanged` is connected to
`update_UI` (line 154), which reads the new selection back from the box. -/
def selectUnit (p : Params) (u : FUnit) (w : Widget) (c : Cfg) : UpdateResult :=
  update_UI p { w with cmbUnits := u } c

/-- `FreqUnits.lock_fs` (lines 163–193): when the lock button is checked,
freeze the current `f_S` in `f_S_locked`; when unchecked, replace the entry by
`None`; in both cases emit `'view_changed':'f_unit'`.  (Note: this method is
never connected to any signal in `_construct_UI`, see `lockButtonClick`.) -/
def lock_fs (w : Widget) (c : Cfg) : Cfg × List Sig :=
  if w.butLock then
    ({ c with f_S_locked := some c.f_S }, [Sig.view_changed "f_unit"])
  else
    ({ c with f_S_locked := none }, [Sig.view_changed "f_unit"])

/-- Line 155: `self.butLock.clicked.connect(self.update_UI)` — the lock
button's `clicked` signal is wired to `update_UI`, not to `lock_fs`.  A click
on the checkable button first toggles its checked state, then invokes the
connected slot. -/
def lockButtonClick (p : Params) (w : Widget) (c : Cfg) : UpdateResult :=
  update_UI p { w with butLock := !w.butLock } c

/-- Modelled from the spec: `safe_eval` (from `pyfda.libs.pyfda_lib`, not part
of the analyzed file) is "an opaque parser that accepts a string and a
fallback value and returns a validated positive float or fails"; called as
`safe_eval(source.text(), fb.fil[0]['f_S'], sign='pos')` it returns the parsed
positive value on success and the fallback unchanged on failure.  A field text
is therefore modelled by its evaluation outcome. -/
inductive FieldText
  | accepted (v : ℚ)
  | rejected
deriving DecidableEq, Repr

/-- Modelled from the spec: the value `safe_eval(text, fallback, sign='pos')`
returns — the validated positive value when the text is accepted, the fallback
when it is rejected. -/
def safe_eval : FieldText → ℚ → ℚ
  | .accepted v, _ => v
  | .rejected, fallback => fallback

/-- The nested `_store_entry` of `FreqUnits.eventFilter` (lines 306–318):
if `spec_edited`, write `f_S` from the evaluated field text, recompute
`T_S = 1/f_S` and `f_max = f_S`, update the range without emitting, emit
`'view_changed':'f_S'`, and clear `spec_edited`. -/
def _store_entry (text : FieldText) (w : Widget) (c : Cfg) :
    Widget × Cfg × List Sig :=
  if w.spec_edited then
    let c := { c with f_S := safe_eval text c.f_S }
    let c := { c with T_S := 1 / c.f_S }
    let c := { c with f_max := c.f_S }
    let rs := _freq_range false w c     -- update plotting range
    ({ w with spec_edited := false }, rs.1, rs.2 ++ [Sig.view_changed "f_S"])
  else
    (w, c, [])

/-- The keys distinguished by `eventFilter` (lines 324–331):
`Key_Return`/`Key_Enter`, `Key_Escape`, and everything else. -/
inductive Key
  | enter
  | escape
  | other
deriving DecidableEq, Repr

/-- An event delivered to `eventFilter` for the `f_S` line-edit field; key and
focus-out events carry the field text at the time of the event. -/
inductive FEvent
  | focusIn
  | keyPress (key : Key) (text : FieldText)
  | focusOut (text : FieldText)
deriving DecidableEq, Repr

/-- `FreqUnits.eventFilter` (lines 291–337), for events whose source is the
`f_S` field: focus-in clears `spec_edited` (and redisplays full precision —
display only); a key press sets `spec_edited`, then Enter/Return commits via
`_store_entry` and Escape reverts the displayed text and clears `spec_edited`;
focus-out commits via `_store_entry` and redisplays in reduced precision. -/
def eventFilter (ev : FEvent) (w : Widget) (c : Cfg) :
    Widget × Cfg × List Sig :=
  match ev with
  | .focusIn => ({ w with spec_edited := false }, c, [])
  | .keyPress key text =>
      let w := { w with spec_edited := true }   -- entry has been changed
      match key with
      | .enter => _store_entry text w c
      | .escape => ({ w with spec_edited := false }, c, [])
      | .other => (w, c, [])
  | .focusOut text => _store_entry text w c

/-- `FreqUnits._store_sort_flag` (lines 390–397): store the sort button's
checked state in `freq_specs_sort` and emit `'specs_changed':'f_sort'` only
when the button is checked. -/
def _store_sort_flag (w : Widget) (c : Cfg) : Cfg × List Sig :=
  let c := { c with freq_specs_sort := w.butSort }
  if w.butSort then (c, [Sig.specs_changed "f_sort"]) else (c, [])

/-- One user-level operation on the widget, as wired in `_construct_UI`
(lines 154–157) and by the event filter installed on the `f_S` field
(line 82): unit selection, a commit of the `f_S` field (focus loss), a click
on the lock button, a range-type selection, and a click on the sort button. -/
inductive Op
  | selectUnit (u : FUnit)
  | commitFS (t : FieldText)
  | lockClick
  | selectRange (rt : RangeType)
  | sortClick (b : Bool)
deriving DecidableEq, Repr

/-- Dispatch of one operation to the connected handler: unit selection and the
lock click run `update_UI`; a range selection runs `_freq_range` (the combo box
passes an `int`, coerced to `emit = True` at line 347); a sort click runs
`_store_sort_flag`; a field commit runs `eventFilter` with a focus-out event. -/
def step (p : Params) (op : Op) (w : Widget) (c : Cfg) :
    Widget × Cfg × List Sig :=
  match op with
  | .selectUnit u =>
      let r := selectUnit p u w c
      (r.widget, r.cfg, r.sigs)
  | .commitFS t => eventFilter (.focusOut t) w c
  | .lockClick =>
      let r := lockButtonClick p w c
      (r.widget, r.cfg, r.sigs)
  | .selectRange rt =>
      let w := { w with cmbFRange := rt }
      let rs := _freq_range true w c
      (w, rs.1, rs.2)
  | .sortClick b =>
      let w := { w with butSort := b }
      let rs := _store_sort_flag w c
      (w, rs.1, rs.2)

/-- The plotting range written by `_freq_range`, as a function of the selected
range type and `f_max` alone (lines 355–360). -/
def rangeOf : RangeType → ℚ → ℚ × ℚ
  | .whole, f_max => (0, f_max)
  | .sym, f_max => (-(f_max / 2), f_max / 2)
  | .half, f_max => (0, f_max / 2)

/-- The value written to `f_S` by the normalized branch of `update_UI`
(lines 224, 228 and 232): 1 for `f_S`, 2 for `f_Ny`, 1 for `k`.  Absolute
units never reach that branch; the value 0 for them is unused. -/
def normAssign : FUnit → ℚ
  | .f_S => 1
  | .f_Ny => 2
  | .k => 1
  | _ => 0

/-- Two unit selections in sequence, threading the widget and shared state. -/
def selectSeq2 (p : Params) (u1 u2 : FUnit) (w : Widget) (c : Cfg) :
    UpdateResult :=
  let r1 := selectUnit p u1 w c
  selectUnit p u2 r1.widget r1.cfg

/-- Three unit selections in sequence, threading the widget and shared state. -/
def selectSeq3 (p : Params) (u1 u2 u3 : FUnit) (w : Widget) (c : Cfg) :
    UpdateResult :=
  let r2 := selectSeq2 p u1 u2 w c
  selectUnit p u3 r2.widget r2.cfg

/-- Concrete shared state used by witnesses and counterexamples: an absolute
unit (Hz) with `f_S = 1000` and all derived fields consistent. -/
def cfg0 : Cfg where
  f_S := 1000
  f_S_locked := none
  f_max := 1000
  T_S := 1 / 1000
  f_S_scale := 1
  freq_specs_unit := .Hz
  freqSpecsRangeType := .half
  freqSpecsRange := (0, 500)
  freq_specs_sort := true
  plt_fUnit := "Hz"
  plt_tUnit := "s"
  plt_fLabel := ""
  plt_tLabel := ""

/-- Concrete widget state matching `cfg0`: unit Hz, half range, lock and sort
buttons checked, field not being edited. -/
def w0 : Widget where
  fs_old := 1000
  spec_edited := false
  cmbUnits := .Hz
  cmbFRange := .half
  butLock := true
  butSort := true

/-- Concrete external configuration: `N_FFT = 1024` (pyFDA's default). -/
def p0 : Params := ⟨1024⟩

/-- Claim C1: selecting unit `f_S` sets `(f_S, f_max, T_S)` to `(1, 1, 1)`;
selecting `f_Ny` sets them to `(2, 2, 1)`; selecting `k` sets them to
`(1, N_FFT, 1)`. -/
theorem selectUnit_normalized_fixed_values (p : Params) (w : Widget) (c : Cfg) :
    ((selectUnit p .f_S w c).cfg.f_S = 1 ∧
     (selectUnit p .f_S w c).cfg.f_max = 1 ∧
     (selectUnit p .f_S w c).cfg.T_S = 1) ∧
    ((selectUnit p .f_Ny w c).cfg.f_S = 2 ∧
     (selectUnit p .f_Ny w c).cfg.f_max = 2 ∧
     (selectUnit p .f_Ny w c).cfg.T_S = 1) ∧
    ((selectUnit p .k w c).cfg.f_S = 1 ∧
     (selectUnit p .k w c).cfg.f_max = p.N_FFT ∧
     (selectUnit p .k w c).cfg.T_S = 1) :=
  ⟨⟨rfl, rfl, rfl⟩, ⟨rfl, rfl, rfl⟩, rfl, rfl, rfl⟩

/-- Claim C2: after `_freq_range` runs, `freqSpecsRange` equals `[0, f_max]`
for range type `whole`, `[-f_max/2, f_max/2]` for `sym` and `[0, f_max/2]`
otherwise, regardless of the rest of the state and of the `emit` flag. -/
theorem freq_range_deterministic (emit : Bool) (w : Widget) (c : Cfg) :
    (_freq_range emit w c).1.freqSpecsRange = rangeOf w.cmbFRange c.f_max := by
  rcases w with ⟨fs, se, cu, cf, bl, bs⟩
  cases cf <;> rfl

/-- Claim C7: when the lock button is checked, `lock_fs` copies the current
`f_S` into `f_S_locked`; when unchecked, it resets `f_S_locked` to `None`;
each case emits exactly one `'view_changed':'f_unit'` signal; and toggling the
lock on then off leaves `f_S` unchanged with `f_S_locked` absent. -/
theorem lock_fs_spec (w : Widget) (c : Cfg) :
    lock_fs { w with butLock := true } c
      = ({ c with f_S_locked := some c.f_S }, [Sig.view_changed "f_unit"]) ∧
    lock_fs { w with butLock := false } c
      = ({ c with f_S_locked := none }, [Sig.view_changed "f_unit"]) ∧
    (lock_fs { w with butLock := false }
       (lock_fs { w with butLock := true } c).1).1.f_S = c.f_S ∧
    (lock_fs { w with butLock := false }
       (lock_fs { w with butLock := true } c).1).1.f_S_locked = none :=
  ⟨rfl, rfl, rfl, rfl⟩

/-- Claim C8: a sort-button click always writes the button's new checked state
into `freq_specs_sort`, and emits a `'specs_changed':'f_sort'` signal if and
only if that new value is true. -/
theorem store_sort_flag_spec (p : Params) (b : Bool) (w : Widget) (c : Cfg) :
    (step p (.sortClick b) w c).2.1.freq_specs_sort = b ∧
    (step p (.sortClick b) w c).2.2
      = (if b then [Sig.specs_changed "f_sort"] else []) := by
  cases b <;> exact ⟨rfl, rfl⟩

/-- Claim C9: the lock button's `clicked` signal is connected to `update_UI`
(line 155), not to `lock_fs`, and `update_UI` never writes `f_S_locked`
(the block that would is commented out, lines 268–276); hence every
lock-button click leaves `f_S_locked` unchanged. -/
theorem lockButtonClick_preserves_f_S_locked (p : Params) (w : Widget)
    (c : Cfg) :
    (lockButtonClick p w c).cfg.f_S_locked = c.f_S_locked := by
  rcases w with ⟨fs, se, cu, cf, bl, bs⟩
  rcases c with ⟨fS, lck, fmax, TS, scl, fsu, rty, rng, srt, pfU, ptU, pfL, ptL⟩
  cases cu <;> cases fsu <;> rfl

/-- Claim C3: committing the sampling-frequency field (losing focus with the
edited flag set, or pressing Enter) with a text the safe-evaluator accepts as
a positive value `v` writes `f_S = v`, recomputes `T_S = 1/v` and
`f_max = v`, recomputes the plotting range from the new `f_max` without
emitting a range signal, and emits exactly one `'view_changed':'f_S'`
signal. -/
theorem store_entry_accepted_commit (w : Widget) (c : Cfg) (v : ℚ)
    (_hv : 0 < v) (he : w.spec_edited = true) :
    ((eventFilter (.focusOut (.accepted v)) w c).2.1.f_S = v ∧
     (eventFilter (.focusOut (.accepted v)) w c).2.1.T_S = 1 / v ∧
     (eventFilter (.focusOut (.accepted v)) w c).2.1.f_max = v ∧
     (eventFilter (.focusOut (.accepted v)) w c).2.1.freqSpecsRange
       = rangeOf w.cmbFRange v ∧
     (eventFilter (.focusOut (.accepted v)) w c).2.2
       = [Sig.view_changed "f_S"]) ∧
    ((eventFilter (.keyPress .enter (.accepted v)) w c).2.1.f_S = v ∧
     (eventFilter (.keyPress .enter (.accepted v)) w c).2.1.T_S = 1 / v ∧
     (eventFilter (.keyPress .enter (.accepted v)) w c).2.1.f_max = v ∧
     (eventFilter (.keyPress .enter (.accepted v)) w c).2.1.freqSpecsRange
       = rangeOf w.cmbFRange v ∧
     (eventFilter (.keyPress .enter (.accepted v)) w c).2.2
       = [Sig.view_changed "f_S"]) := by
  rcases w with ⟨fs, se, cu, cf, bl, bs⟩
  subst he
  cases cf <;> exact ⟨⟨rfl, rfl, rfl, rfl, rfl⟩, rfl, rfl, rfl, rfl, rfl⟩

/-- Witness for C3 at a concrete input: committing the text accepted as `50`
from the state `(w0, cfg0)` with the edited flag set. -/
theorem store_entry_accepted_commit_witness :
    (eventFilter (.focusOut (.accepted 50))
        { w0 with spec_edited := true } cfg0).2.1.f_S = 50 ∧
    (eventFilter (.focusOut (.accepted 50))
        { w0 with spec_edited := true } cfg0).2.1.T_S = 1 / 50 ∧
    (eventFilter (.focusOut (.accepted 50))
        { w0 with spec_edited := true } cfg0).2.2
      = [Sig.view_changed "f_S"] :=
  ⟨(store_entry_accepted_commit { w0 with spec_edited := true } cfg0 50
      (by norm_num) rfl).1.1,
   (store_entry_accepted_commit { w0 with spec_edited := true } cfg0 50
      (by norm_num) rfl).1.2.1,
   (store_entry_accepted_commit { w0 with spec_edited := true } cfg0 50
      (by norm_num) rfl).1.2.2.2.2⟩

/-- Concrete shared state with `T_S ≠ 1/f_S` and `f_max = f_S` (exactly the
field values the widget itself writes when `f_Ny` is selected): `f_S = 2`,
`T_S = 1`. -/
def cfgNy : Cfg :=
  { cfg0 with f_S := 2, f_max := 2, T_S := 1, freq_specs_unit := .f_Ny,
              freqSpecsRange := (0, 1) }

/-- Claim C4 fails as stated: committing the field with a rejected text does
not always leave the shared state unchanged.  At the concrete state `cfgNy`
(`f_S = 2`, `T_S = 1`), a rejected commit rewrites `T_S` to `1/2 ≠ 1`. -/
theorem store_entry_rejected_counterexample :
    (eventFilter (.focusOut .rejected)
        { w0 with spec_edited := true } cfgNy).2.1.T_S ≠ cfgNy.T_S := by
  show (1 : ℚ) / 2 ≠ 1
  norm_num

/-- Claim C4 amended: committing the sampling-frequency field with a text the
safe-evaluator rejects leaves `f_S` unchanged (the evaluator returns the
fallback) but still re-writes `T_S := 1/f_S` and `f_max := f_S` and recomputes
the range; the whole shared state is unchanged exactly when it already
satisfied `T_S = 1/f_S`, `f_max = f_S` and range consistency before the
commit. -/
theorem store_entry_rejected_amended (w : Widget) (c : Cfg)
    (he : w.spec_edited = true) :
    (eventFilter (.focusOut .rejected) w c).2.1.f_S = c.f_S ∧
    (eventFilter (.focusOut .rejected) w c).2.1.T_S = 1 / c.f_S ∧
    (eventFilter (.focusOut .rejected) w c).2.1.f_max = c.f_S ∧
    (c.T_S = 1 / c.f_S → c.f_max = c.f_S →
      c.freqSpecsRangeType = w.cmbFRange →
      c.freqSpecsRange = rangeOf w.cmbFRange c.f_max →
      (eventFilter (.focusOut .rejected) w c).2.1 = c) := by
  rcases w with ⟨fs, se, cu, cf, bl, bs⟩
  subst he
  rcases c with ⟨fS, lck, fmax, TS, scl, fsu, rty, rng, srt, pfU, ptU, pfL, ptL⟩
  refine ⟨rfl, rfl, rfl, ?_⟩
  intro h1 h2 h3 h4
  dsimp only at h1 h2 h3 h4 ⊢
  subst h1; subst h2; subst h3; subst h4
  cases rty <;> rfl

/-- Witness for the amended C4 at a concrete input: a rejected commit from the
consistent state `(w0, cfg0)` leaves the whole shared state unchanged. -/
theorem store_entry_rejected_amended_witness :
    (eventFilter (.focusOut .rejected)
        { w0 with spec_edited := true } cfg0).2.1 = cfg0 :=
  (store_entry_rejected_amended { w0 with spec_edited := true } cfg0
      rfl).2.2.2 rfl rfl rfl (by norm_num [cfg0, w0, rangeOf])

/-- Claim C5 fails as stated: the operation of selecting the `f_Ny` unit
leaves `f_S = 2` (nonzero) while writing `T_S = 1`, so `T_S ≠ 1/f_S`
afterwards (lines 228–229 set `f_S = 2` and `T_S = 1`). -/
theorem T_S_invariant_counterexample :
    (step p0 (.selectUnit .f_Ny) w0 cfg0).2.1.f_S ≠ 0 ∧
    ¬ (step p0 (.selectUnit .f_Ny) w0 cfg0).2.1.T_S
        = 1 / (step p0 (.selectUnit .f_Ny) w0 cfg0).2.1.f_S := by
  constructor
  · show (2 : ℚ) ≠ 0
    norm_num
  · show ¬ (1 : ℚ) = 1 / 2
    norm_num

/-- Claim C5 amended: `T_S = 1/f_S` is preserved by every operation of the
widget except those that apply the `f_Ny` unit — a selection of `f_Ny`, or a
lock-button click while `f_Ny` is the current unit (the click re-runs
`update_UI`) — which set `T_S = 1` with `f_S = 2`. -/
theorem T_S_invariant_preserved (p : Params) (op : Op) (w : Widget) (c : Cfg)
    (hpre : c.T_S = 1 / c.f_S)
    (hsel : op ≠ Op.selectUnit .f_Ny)
    (hlock : op = Op.lockClick → w.cmbUnits ≠ .f_Ny) :
    (step p op w c).2.1.T_S = 1 / (step p op w c).2.1.f_S := by
  rcases w with ⟨fs, se, cu, cf, bl, bs⟩
  rcases c with ⟨fS, lck, fmax, TS, scl, fsu, rty, rng, srt, pfU, ptU, pfL, ptL⟩
  dsimp only at hpre hlock
  cases op with
  | selectUnit u =>
      cases u with
      | f_Ny => exact absurd rfl hsel
      | f_S => show (1 : ℚ) = 1 / 1; norm_num
      | k => show (1 : ℚ) = 1 / 1; norm_num
      | Hz => cases fsu <;> first | rfl | exact hpre
      | kHz => cases fsu <;> first | rfl | exact hpre
      | MHz => cases fsu <;> first | rfl | exact hpre
      | GHz => cases fsu <;> first | rfl | exact hpre
  | commitFS t => cases se <;> first | rfl | exact hpre
  | lockClick =>
      have hcu := hlock rfl
      cases cu with
      | f_Ny => exact absurd rfl hcu
      | f_S => show (1 : ℚ) = 1 / 1; norm_num
      | k => show (1 : ℚ) = 1 / 1; norm_num
      | Hz => cases fsu <;> first | rfl | exact hpre
      | kHz => cases fsu <;> first | rfl | exact hpre
      | MHz => cases fsu <;> first | rfl | exact hpre
      | GHz => cases fsu <;> first | rfl | exact hpre
  | selectRange rt => cases rt <;> exact hpre
  | sortClick b => cases b <;> exact hpre

/-- Witness for the amended C5 at a concrete input: switching the range type
to `sym` from the consistent state `(w0, cfg0)` preserves `T_S = 1/f_S`. -/
theorem T_S_invariant_preserved_witness :
    (step p0 (.selectRange .sym) w0 cfg0).2.1.T_S
      = 1 / (step p0 (.selectRange .sym) w0 cfg0).2.1.f_S :=
  T_S_invariant_preserved p0 (.selectRange .sym) w0 cfg0 rfl (by decide)
    (by intro h; cases h)

/-- Claim C6: from a state whose stored unit is absolute with sampling
frequency `f`, selecting a normalized unit and then re-selecting an absolute
unit restores `f_S = f` (via the `fs_old` restore point stored at line 220 and
read back at lines 242–243), with `f_max = f` and `T_S = 1/f`. -/
theorem absolute_roundtrip (p : Params) (w : Widget) (c : Cfg)
    (unorm uabs : FUnit) (f : ℚ)
    (hn : unorm.isNormalized = true)
    (ha : uabs.isNormalized = false)
    (_hstart : c.freq_specs_unit.isNormalized = false)
    (hf : c.f_S = f) :
    (selectSeq2 p unorm uabs w c).cfg.f_S = f ∧
    (selectSeq2 p unorm uabs w c).cfg.f_max = f ∧
    (selectSeq2 p unorm uabs w c).cfg.T_S = 1 / f := by
  subst hf
  cases unorm <;> cases uabs <;>
    first
      | exact absurd hn (by decide)
      | exact absurd ha (by decide)
      | exact ⟨rfl, rfl, rfl⟩

/-- Witness for C6 at a concrete input: `Hz → f_Ny → Hz` from `(w0, cfg0)`
with `f_S = 1000` restores `f_S = 1000`, `f_max = 1000`, `T_S = 1/1000`. -/
theorem absolute_roundtrip_witness :
    (selectSeq2 p0 .f_Ny .Hz w0 cfg0).cfg.f_S = 1000 ∧
    (selectSeq2 p0 .f_Ny .Hz w0 cfg0).cfg.f_max = 1000 ∧
    (selectSeq2 p0 .f_Ny .Hz w0 cfg0).cfg.T_S = 1 / 1000 :=
  absolute_roundtrip p0 w0 cfg0 .f_Ny .Hz 1000 (by decide) (by decide)
    (by decide) rfl

/-- Claim C10: every normalized-unit selection overwrites `fs_old` with the
then-current `f_S` (line 220); hence selecting normalized unit `A`, then a
different normalized unit `B`, then an absolute unit restores `f_S` to the
fixed value `A` assigned (1 for `f_S` and `k`, 2 for `f_Ny`), not to the
original sampling frequency. -/
theorem fs_old_overwritten (p : Params) (w : Widget) (c : Cfg)
    (A B uabs : FUnit)
    (hA : A.isNormalized = true) (hB : B.isNormalized = true)
    (hAB : A ≠ B) (habs : uabs.isNormalized = false)
    (hne : c.f_S ≠ normAssign A) :
    (selectSeq3 p A B uabs w c).cfg.f_S = normAssign A ∧
    (selectSeq3 p A B uabs w c).cfg.f_S ≠ c.f_S := by
  cases A <;> cases B <;> cases uabs <;>
    first
      | exact absurd hA (by decide)
      | exact absurd hB (by decide)
      | exact absurd rfl hAB
      | exact absurd habs (by decide)
      | exact ⟨rfl, fun h => hne h.symm⟩

/-- Witness for C10 at a concrete input: `f_Ny → k → Hz` from `(w0, cfg0)`
with `f_S = 1000` ends with `f_S = 2` (the value `f_Ny` assigned), not
`1000`. -/
theorem fs_old_overwritten_witness :
    (selectSeq3 p0 .f_Ny .k .Hz w0 cfg0).cfg.f_S = normAssign .f_Ny ∧
    (selectSeq3 p0 .f_Ny .k .Hz w0 cfg0).cfg.f_S ≠ cfg0.f_S :=
  fs_old_overwritten p0 w0 cfg0 .f_Ny .k .Hz (by decide) (by decide)
    (by decide) (by decide) (by norm_num [cfg0, normAssign])
